import Mathlib

/-!
Verification of the yc-hackathon pipeline: shallow embedding of the
Supabase task-queue schema (`src/server/supabase_schema.sql`), of the
orchestrator's job state machine (modelled from the spec where the Python
worker code is not in the repository snapshot), and of the front-end
submit/delete handlers (`demo-form.tsx`, `dashboard/page.tsx`).
-/

namespace YCHack

/-- Task statuses used by the `task_queue` table (`status VARCHAR`). -/
inductive TaskStatus where
  | pending
  | processing
  | succeeded
  | failed
deriving DecidableEq, Repr

/-- One row of the `task_queue` table, from the DDL in
`supabase_schema.sql` lines 70-81.  `id UUID PRIMARY KEY` is modelled as a
`Nat`; timestamps are `Nat` ticks; `JSONB payload` is an opaque string. -/
structure Task where
  id : Nat
  task_type : String
  payload : String
  status : TaskStatus
  attempts : Nat
  max_attempts : Nat
  error_message : Option String
  created_at : Nat
  started_at : Option Nat
  completed_at : Option Nat
deriving DecidableEq, Repr

/-- Insert into `task_queue` giving only the NOT NULL columns, so every
defaulted column takes the DDL default: `status 'pending'`, `attempts 0`,
`max_attempts 3`, `created_at NOW()`, everything else NULL. -/
def insertTask (id : Nat) (task_type payload : String) (now : Nat) : Task :=
  { id := id
    task_type := task_type
    payload := payload
    status := TaskStatus.pending
    attempts := 0
    max_attempts := 3
    error_message := none
    created_at := now
    started_at := none
    completed_at := none }

/-- The WHERE clause of `claim_next_task`:
`status = 'pending' AND attempts < max_attempts`. -/
def eligible (t : Task) : Bool :=
  t.status == TaskStatus.pending && t.attempts < t.max_attempts

/-- The UPDATE statement of `claim_next_task`, applied to each row:
`SET status='processing', started_at=NOW(), attempts=attempts+1 WHERE id = cid`. -/
def claimUpdate (now cid : Nat) (r : Task) : Task :=
  if r.id = cid then
    { r with status := TaskStatus.processing
             started_at := some now
             attempts := r.attempts + 1 }
  else r

/-- `claim_next_task()` from `supabase_schema.sql` lines 88-111: select the
oldest (`ORDER BY created_at ASC LIMIT 1`) pending row with
`attempts < max_attempts`; if one exists, update that row in the table; the
function returns `next_task`, i.e. the snapshot taken by the SELECT, before
the UPDATE ran.  The queue table is a list of rows; `FOR UPDATE SKIP
LOCKED` makes the whole body atomic, so concurrent executions are modelled
as sequential ones. -/
def claim_next_task (now : Nat) (q : List Task) : Option Task × List Task :=
  match (q.filter eligible).argmin Task.created_at with
  | none => (none, q)
  | some t => (some t, q.map (claimUpdate now t.id))

/-- `claimUpdate` never changes a row's id. -/
theorem claimUpdate_id (now cid : Nat) (r : Task) : (claimUpdate now cid r).id = r.id := by
  unfold claimUpdate
  split <;> rfl

/-- Characterisation of a successful claim: the returned task is an
eligible row of the table, minimal in `created_at` among eligible rows, and
the new table is the row-wise update. -/
theorem claim_some_spec {now : Nat} {q : List Task} {t : Task} {q' : List Task}
    (h : claim_next_task now q = (some t, q')) :
    t ∈ q ∧ eligible t = true ∧
      (∀ u ∈ q, eligible u = true → t.created_at ≤ u.created_at) ∧
      q' = q.map (claimUpdate now t.id) := by
  unfold claim_next_task at h
  cases harg : (q.filter eligible).argmin Task.created_at with
  | none => rw [harg] at h; exact absurd (congrArg Prod.fst h) (by simp)
  | some m =>
    rw [harg] at h
    have hm : m ∈ (q.filter eligible).argmin Task.created_at := harg ▸ rfl
    have hmem : m ∈ q.filter eligible := List.argmin_mem hm
    have ht : t = m := by
      have := congrArg Prod.fst h
      simpa using this.symm
    subst ht
    refine ⟨(List.mem_filter.mp hmem).1, (List.mem_filter.mp hmem).2, ?_, ?_⟩
    · intro u hu helig
      exact List.le_of_mem_argmin (List.mem_filter.mpr ⟨hu, helig⟩) hm
    · have := congrArg Prod.snd h
      simpa using this.symm

/-- If no row is eligible, `claim_next_task` returns NULL and the table is
untouched. -/
theorem claim_none_of_no_eligible {now : Nat} {q : List Task}
    (h : ∀ u ∈ q, eligible u = false) :
    claim_next_task now q = (none, q) := by
  unfold claim_next_task
  have hfilter : q.filter eligible = [] := by
    apply List.filter_eq_nil_iff.mpr
    intro u hu
    simp [h u hu]
  rw [hfilter]
  rfl

/-- Unfolding of the eligibility test. -/
theorem eligible_iff (t : Task) :
    eligible t = true ↔ t.status = TaskStatus.pending ∧ t.attempts < t.max_attempts := by
  unfold eligible
  simp

/-- A failed row is never eligible. -/
theorem eligible_false_of_failed {t : Task} (h : t.status = TaskStatus.failed) :
    eligible t = false := by
  unfold eligible
  simp [h]

/-- The claim operation never changes the multiset of row ids (the UPDATE
touches no id column). -/
theorem claim_ids (now : Nat) (q : List Task) :
    ((claim_next_task now q).2).map Task.id = q.map Task.id := by
  unfold claim_next_task
  cases harg : (q.filter eligible).argmin Task.created_at with
  | none => rfl
  | some t =>
    simp only [List.map_map]
    exact List.map_congr_left fun r _ => claimUpdate_id now t.id r

/-- A non-eligible row survives a claim unchanged (the UPDATE hits only the
selected row, which is eligible and hence, under the primary-key constraint
on `id`, a different row). -/
theorem mem_after_claim {now : Nat} {q : List Task} {t : Task}
    (hnd : (q.map Task.id).Nodup) (ht : t ∈ q) (hne : eligible t = false) :
    t ∈ (claim_next_task now q).2 := by
  unfold claim_next_task
  cases harg : (q.filter eligible).argmin Task.created_at with
  | none => exact ht
  | some c =>
    have hc : c ∈ q.filter eligible := List.argmin_mem (Option.mem_def.mpr harg)
    have hcq : c ∈ q := (List.mem_filter.mp hc).1
    have hce : eligible c = true := (List.mem_filter.mp hc).2
    have hne' : c ≠ t := fun h => by rw [h, hne] at hce; exact Bool.false_ne_true hce
    have hid : t.id ≠ c.id := fun h =>
      hne' (List.inj_on_of_nodup_map hnd hcq ht h.symm)
    have : claimUpdate now c.id t = t := by
      unfold claimUpdate
      simp [hid]
    simpa [this] using List.mem_map_of_mem (claimUpdate now c.id) ht

/-- A task returned by `claim_next_task` was a pending row. -/
theorem claimed_pending {now : Nat} {q : List Task} {u : Task}
    (h : (claim_next_task now q).1 = some u) : u.status = TaskStatus.pending := by
  have hpair : claim_next_task now q = (some u, (claim_next_task now q).2) := by
    rw [← h]
  obtain ⟨-, helig, -, -⟩ := claim_some_spec hpair
  exact ((eligible_iff u).mp helig).1

/-- A sequence of `claim_next_task` calls at the given clock ticks: returns
each call's result and the final table.  This is the linearization of any
number of workers polling the queue, which `FOR UPDATE SKIP LOCKED` justifies. -/
def claimSeq : List Nat → List Task → List (Option Task) × List Task
  | [], q => ([], q)
  | n :: ns, q =>
      let s := claim_next_task n q
      let r := claimSeq ns s.2
      (s.1 :: r.1, r.2)

/-- C1 (counterexample input): a fresh `record` task, the only row of the
queue, eligible to be claimed. -/
def cexTask : Task := insertTask 0 "record" "p" 0

/-- C1: the claim states the returned value reflects the claimed state
(status `processing`, attempts incremented, `started_at` set).  It does
not: `claim_next_task` returns `next_task`, the snapshot taken by the
SELECT before the UPDATE, so on a queue holding one fresh pending task the
returned record still shows status `pending`, `attempts = 0` and
`started_at = NULL`. -/
theorem C1_returned_snapshot_counterexample :
    (claim_next_task 5 [cexTask]).1 = some cexTask ∧
      cexTask.status = TaskStatus.pending ∧
      ¬ cexTask.status = TaskStatus.processing ∧
      cexTask.started_at = none ∧
      cexTask.attempts = 0 := by
  refine ⟨?_, rfl, by decide, rfl, rfl⟩
  rfl

/-- C1 (amended): on a queue holding at least one eligible pending task,
`claim_next_task` selects an oldest pending task with
`attempts < max_attempts`, updates that row in the table to `processing`
with `attempts` incremented and `started_at` stamped, leaves every other
row unchanged, and returns the selected task as it was at selection time
(the pre-update snapshot). -/
theorem C1_claim_next_oldest_eligible (now : Nat) (q : List Task)
    (h : ∃ t ∈ q, eligible t = true) :
    ∃ c q', claim_next_task now q = (some c, q') ∧
      c ∈ q ∧ c.status = TaskStatus.pending ∧ c.attempts < c.max_attempts ∧
      (∀ u ∈ q, eligible u = true → c.created_at ≤ u.created_at) ∧
      claimUpdate now c.id c ∈ q' ∧
      (claimUpdate now c.id c).id = c.id ∧
      (claimUpdate now c.id c).status = TaskStatus.processing ∧
      (claimUpdate now c.id c).attempts = c.attempts + 1 ∧
      (claimUpdate now c.id c).started_at = some now ∧
      (∀ u ∈ q, u.id ≠ c.id → u ∈ q') := by
  obtain ⟨t, ht, helig⟩ := h
  have hfil : t ∈ q.filter eligible := List.mem_filter.mpr ⟨ht, helig⟩
  have hne : q.filter eligible ≠ [] := fun hnil => by
    rw [hnil] at hfil
    exact List.not_mem_nil t hfil
  cases harg : (q.filter eligible).argmin Task.created_at with
  | none => exact absurd (List.argmin_eq_none.mp harg) hne
  | some c =>
    have hpair : claim_next_task now q = (some c, q.map (claimUpdate now c.id)) := by
      unfold claim_next_task
      rw [harg]
    obtain ⟨hcq, hce, hmin, -⟩ := claim_some_spec hpair
    have hupd : claimUpdate now c.id c =
        { c with status := TaskStatus.processing
                 started_at := some now
                 attempts := c.attempts + 1 } := by
      unfold claimUpdate
      simp
    refine ⟨c, q.map (claimUpdate now c.id), hpair, hcq,
      ((eligible_iff c).mp hce).1, ((eligible_iff c).mp hce).2, hmin,
      List.mem_map_of_mem (claimUpdate now c.id) hcq, claimUpdate_id now c.id c,
      by rw [hupd], by rw [hupd], by rw [hupd], ?_⟩
    intro u hu hid
    have : claimUpdate now c.id u = u := by
      unfold claimUpdate
      simp [hid]
    simpa [this] using List.mem_map_of_mem (claimUpdate now c.id) hu

/-- C1 witness: the amended theorem applied to the one-task queue. -/
theorem C1_claim_next_oldest_eligible_witness :
    (∃ t ∈ [cexTask], eligible t = true) ∧
      (∃ c q', claim_next_task 5 [cexTask] = (some c, q') ∧
        c ∈ [cexTask] ∧ c.status = TaskStatus.pending ∧ c.attempts < c.max_attempts ∧
        (∀ u ∈ [cexTask], eligible u = true → c.created_at ≤ u.created_at) ∧
        claimUpdate 5 c.id c ∈ q' ∧
        (claimUpdate 5 c.id c).id = c.id ∧
        (claimUpdate 5 c.id c).status = TaskStatus.processing ∧
        (claimUpdate 5 c.id c).attempts = c.attempts + 1 ∧
        (claimUpdate 5 c.id c).started_at = some 5 ∧
        (∀ u ∈ [cexTask], u.id ≠ c.id → u ∈ q')) :=
  ⟨⟨cexTask, by decide⟩, C1_claim_next_oldest_eligible 5 [cexTask] ⟨cexTask, by decide⟩⟩

/-- First-component version of `claim_some_spec`. -/
theorem claim_fst_spec {now : Nat} {q : List Task} {u : Task}
    (h : (claim_next_task now q).1 = some u) : u ∈ q ∧ eligible u = true := by
  have hpair : claim_next_task now q = (some u, (claim_next_task now q).2) := by
    rw [← h]
  obtain ⟨h1, h2, -, -⟩ := claim_some_spec hpair
  exact ⟨h1, h2⟩

/-- C2: two claims, in the serialization that the atomic
`FOR UPDATE SKIP LOCKED` body imposes on concurrent callers, never return
the same task: the first claim turns the selected row to `processing`, and
the second claim only selects `pending` rows. -/
theorem C2_no_double_claim (n1 n2 : Nat) (q q1 q2 : List Task) (t1 t2 : Task)
    (h1 : claim_next_task n1 q = (some t1, q1))
    (h2 : claim_next_task n2 q1 = (some t2, q2)) :
    t1.id ≠ t2.id := by
  obtain ⟨-, -, -, hq1⟩ := claim_some_spec h1
  obtain ⟨ht2, helig2, -, -⟩ := claim_some_spec h2
  rw [hq1] at ht2
  obtain ⟨u, hu, hequ⟩ := List.mem_map.mp ht2
  by_cases hid : u.id = t1.id
  · exfalso
    have hstat : t2.status = TaskStatus.processing := by
      rw [← hequ]
      unfold claimUpdate
      simp [hid]
    rw [((eligible_iff t2).mp helig2).1] at hstat
    exact TaskStatus.noConfusion hstat
  · have : claimUpdate n1 t1.id u = u := by
      unfold claimUpdate
      simp [hid]
    rw [this] at hequ
    rw [← hequ]
    exact fun h => hid h.symm

/-- C2 witness inputs: a two-task queue and its states after each claim. -/
def tW1 : Task := insertTask 0 "record" "p" 0

/-- Second task of the C2 witness queue. -/
def tW2 : Task := insertTask 1 "segment" "p" 1

/-- The C2 witness queue. -/
def qW : List Task := [tW1, tW2]

/-- The C2 witness queue after the first claim. -/
def qW1 : List Task := [claimUpdate 10 0 tW1, tW2]

/-- The C2 witness queue after the second claim. -/
def qW2 : List Task := [claimUpdate 10 0 tW1, claimUpdate 11 1 tW2]

/-- C2 witness: on the concrete two-task queue, two successive claims
return distinct tasks. -/
theorem C2_no_double_claim_witness :
    claim_next_task 10 qW = (some tW1, qW1) ∧
      claim_next_task 11 qW1 = (some tW2, qW2) ∧
      tW1.id ≠ tW2.id :=
  ⟨by decide, by decide,
    C2_no_double_claim 10 11 qW qW1 qW2 tW1 tW2 (by decide) (by decide)⟩

/-- C4: a failed task (with its attempts exhausted) is terminal: no call
of any later sequence of claims ever returns a task with its id.  Row ids
are unique (`id` is the table's primary key). -/
theorem C4_failed_task_never_reclaimed (ns : List Nat) (q : List Task) (t : Task)
    (hnd : (q.map Task.id).Nodup) (ht : t ∈ q)
    (hf : t.status = TaskStatus.failed) (hmax : t.max_attempts ≤ t.attempts) :
    ∀ u : Task, some u ∈ (claimSeq ns q).1 → u.id ≠ t.id := by
  induction ns generalizing q with
  | nil =>
    intro u hu
    simp [claimSeq] at hu
  | cons n ns ih =>
    intro u hu
    have hu' : some u = (claim_next_task n q).1 ∨
        some u ∈ (claimSeq ns (claim_next_task n q).2).1 := by
      simpa [claimSeq] using hu
    rcases hu' with hhead | htail
    · obtain ⟨huq, helig⟩ := claim_fst_spec hhead.symm
      intro hid
      have : u = t := List.inj_on_of_nodup_map hnd huq ht hid
      rw [this, eligible_false_of_failed hf] at helig
      exact Bool.false_ne_true helig
    · have hnd' : (((claim_next_task n q).2).map Task.id).Nodup := by
        rw [claim_ids]
        exact hnd
      have ht' : t ∈ (claim_next_task n q).2 :=
        mem_after_claim hnd ht (eligible_false_of_failed hf)
      exact ih ((claim_next_task n q).2) hnd' ht' u htail

/-- C4 witness input: an exhausted failed task. -/
def tFailW : Task :=
  { id := 2
    task_type := "record"
    payload := "p"
    status := TaskStatus.failed
    attempts := 3
    max_attempts := 3
    error_message := some "boom"
    created_at := 0
    started_at := some 1
    completed_at := some 2 }

/-- C4 witness queue: the failed task next to a live pending one. -/
def qF : List Task := [tFailW, insertTask 3 "segment" "p" 5]

/-- C4 witness: on the concrete queue, two rounds of claims never return
the failed task. -/
theorem C4_failed_task_never_reclaimed_witness :
    ((qF.map Task.id).Nodup ∧ tFailW ∈ qF ∧
        tFailW.status = TaskStatus.failed ∧ tFailW.max_attempts ≤ tFailW.attempts) ∧
      (∀ u : Task, some u ∈ (claimSeq [7, 8] qF).1 → u.id ≠ tFailW.id) :=
  ⟨⟨by decide, by decide, rfl, by decide⟩,
    C4_failed_task_never_reclaimed [7, 8] qF tFailW (by decide) (by decide) rfl (by decide)⟩

/-- C6: when no pending row with remaining attempts exists, the claim
returns NULL; the function is total (no waiting is modelled: the SELECT
with SKIP LOCKED never blocks). -/
theorem C6_claim_none_when_no_eligible (now : Nat) (q : List Task)
    (h : ∀ u ∈ q, eligible u = false) :
    (claim_next_task now q).1 = none := by
  rw [claim_none_of_no_eligible h]

/-- C6/C8 witness input: a pending task whose attempts are exhausted, so
nothing on the queue is eligible. -/
def tExhausted : Task := { insertTask 9 "record" "p" 0 with attempts := 3 }

/-- C6 witness: the concrete exhausted queue yields no task. -/
theorem C6_claim_none_when_no_eligible_witness :
    (∀ u ∈ [tExhausted], eligible u = false) ∧
      (claim_next_task 4 [tExhausted]).1 = none :=
  ⟨by decide, C6_claim_none_when_no_eligible 4 [tExhausted] (by decide)⟩

/-- C7: a freshly inserted task takes the DDL defaults `attempts = 0` and
`max_attempts = 3` (and starts `pending`). -/
theorem C7_new_task_defaults (id : Nat) (task_type payload : String) (now : Nat) :
    (insertTask id task_type payload now).attempts = 0 ∧
      (insertTask id task_type payload now).max_attempts = 3 ∧
      (insertTask id task_type payload now).status = TaskStatus.pending :=
  ⟨rfl, rfl, rfl⟩

/-- C8: when no row is eligible, `claim_next_task` leaves the table
exactly as it was: the UPDATE branch runs only when the SELECT found a
row. -/
theorem C8_claim_none_frame (now : Nat) (q : List Task)
    (h : ∀ u ∈ q, eligible u = false) :
    (claim_next_task now q).2 = q := by
  rw [claim_none_of_no_eligible h]

/-- C8 witness: the concrete exhausted queue is returned unchanged. -/
theorem C8_claim_none_frame_witness :
    (∀ u ∈ [tExhausted], eligible u = false) ∧
      (claim_next_task 6 [tExhausted]).2 = [tExhausted] :=
  ⟨by decide, C8_claim_none_frame 6 [tExhausted] (by decide)⟩

/-! ## Job state machine (Orchestrator)

The Python worker that mutates the `demos` row is not in the repository
snapshot; the state machine below is modelled from the spec, §4.2. -/

/-- Job statuses (`demos.status` / spec §3). -/
inductive JobStatus where
  | pending
  | recording
  | processing
  | generating
  | sending
  | completed
  | failed
deriving DecidableEq, Repr

/-- The job fields that the orchestrator mutates (spec §3 Job record /
`demos` table).  `error_detail` is a list so that appending is
distinguishable from overwriting. -/
structure Job where
  status : JobStatus
  long_video_ref : Option String
  short_video_refs : List String
  error_detail : List String
deriving DecidableEq, Repr

/-- A job as created on submission: `status = pending`, no artifacts
(`short_video_urls` defaults to the empty array in the `demos` DDL). -/
def initialJob : Job :=
  { status := JobStatus.pending
    long_video_ref := none
    short_video_refs := []
    error_detail := [] }

/-- Stage outcomes the orchestrator reacts to (spec §4.2 trigger column). -/
inductive StageEvent where
  | recordClaimed
  | recordSucceeded (ref : String)
  | recordExhausted (e : String)
  | dubClaimed
  | dubExhausted (e : String)
  | segmentSucceeded (refs : List String)
  | segmentExhausted (e : String)
  | deliverClaimed
  | deliverSucceeded
  | deliverExhausted (e : String)
deriving DecidableEq, Repr

/-- Modelled from the spec: the orchestrator's per-outcome job transition
(§4.2 transition table plus the design-rationale rule that Dub-stage
retry exhaustion is non-fatal: the failure is appended to `error_detail`
and the job stays in `processing`, proceeding to Segment with the
undubbed artifact).  The worker code itself is absent from the snapshot.
`none` means the event is invalid in the current state. -/
def jobStep (j : Job) (ev : StageEvent) : Option Job :=
  match j.status, ev with
  | JobStatus.pending, StageEvent.recordClaimed =>
      some { j with status := JobStatus.recording }
  | JobStatus.recording, StageEvent.recordSucceeded ref =>
      some { j with status := JobStatus.processing, long_video_ref := some ref }
  | JobStatus.recording, StageEvent.recordExhausted e =>
      some { j with status := JobStatus.failed, error_detail := j.error_detail ++ [e] }
  | JobStatus.processing, StageEvent.dubClaimed => some j
  | JobStatus.processing, StageEvent.dubExhausted e =>
      some { j with error_detail := j.error_detail ++ [e] }
  | JobStatus.processing, StageEvent.segmentSucceeded refs =>
      some { j with status := JobStatus.generating, short_video_refs := refs }
  | JobStatus.processing, StageEvent.segmentExhausted e =>
      some { j with status := JobStatus.failed, error_detail := j.error_detail ++ [e] }
  | JobStatus.generating, StageEvent.deliverClaimed =>
      some { j with status := JobStatus.sending }
  | JobStatus.sending, StageEvent.deliverSucceeded =>
      some { j with status := JobStatus.completed }
  | JobStatus.sending, StageEvent.deliverExhausted e =>
      some { j with status := JobStatus.failed, error_detail := j.error_detail ++ [e] }
  | _, _ => none

/-- Run the orchestrator over a sequence of stage outcomes. -/
def runJob : Job → List StageEvent → Option Job
  | j, [] => some j
  | j, ev :: evs =>
      match jobStep j ev with
      | none => none
      | some j' => runJob j' evs

/-- The status set in which `short_video_refs` has not been produced yet. -/
def beforeSegment (s : JobStatus) : Prop :=
  s = JobStatus.pending ∨ s = JobStatus.recording ∨ s = JobStatus.processing

/-- One orchestrator step preserves "no shorts before the Segment stage". -/
theorem jobStep_refs_inv {j j' : Job} {ev : StageEvent}
    (hstep : jobStep j ev = some j')
    (hinv : beforeSegment j.status → j.short_video_refs = []) :
    beforeSegment j'.status → j'.short_video_refs = [] := by
  unfold jobStep at hstep
  unfold beforeSegment at hinv ⊢
  split at hstep <;>
    first
    | exact Option.noConfusion hstep
    | (injection hstep with h
       subst h
       simp_all)

/-- Any run of the orchestrator preserves "no shorts before Segment". -/
theorem runJob_refs_inv (evs : List StageEvent) :
    ∀ j j' : Job, runJob j evs = some j' →
      (beforeSegment j.status → j.short_video_refs = []) →
      (beforeSegment j'.status → j'.short_video_refs = []) := by
  induction evs with
  | nil =>
    intro j j' h hinv
    have : j = j' := by
      simpa [runJob] using h
    exact this ▸ hinv
  | cons ev evs ih =>
    intro j j' h hinv
    cases hstep : jobStep j ev with
    | none => rw [runJob, hstep] at h; exact Option.noConfusion h
    | some j1 =>
      rw [runJob, hstep] at h
      exact ih j1 j' h (jobStep_refs_inv hstep hinv)

/-- C3 (counterexample input): record succeeds, then Segment succeeds. -/
def cexJobEvents : List StageEvent :=
  [StageEvent.recordClaimed, StageEvent.recordSucceeded "v",
   StageEvent.segmentSucceeded ["s1"]]

/-- C3 (counterexample result): the job right after Segment success. -/
def cexJob : Job :=
  { status := JobStatus.generating
    long_video_ref := some "v"
    short_video_refs := ["s1"]
    error_detail := [] }

/-- C3: the claim states `short_video_refs` is non-empty only in status
`completed`; but per the spec's own transition table the refs are set when
the Segment stage succeeds, i.e. already at `generating`: a job reachable
from submission has non-empty `short_video_refs` in a non-`completed`
status. -/
theorem C3_refs_nonempty_before_completed_counterexample :
    runJob initialJob cexJobEvents = some cexJob ∧
      cexJob.short_video_refs ≠ [] ∧
      cexJob.status ≠ JobStatus.completed := by
  refine ⟨rfl, ?_, ?_⟩ <;> decide

/-- C3 (amended): `short_video_refs` is empty in every status before the
Segment stage has succeeded (`pending`, `recording`, `processing`); it
first becomes non-empty when Segment success moves the job to
`generating`, and persists through `sending`/`completed`. -/
theorem C3_refs_empty_before_segment (evs : List StageEvent) (j : Job)
    (h : runJob initialJob evs = some j) (hs : beforeSegment j.status) :
    j.short_video_refs = [] :=
  runJob_refs_inv evs initialJob j h (fun _ => rfl) hs

/-- C3 witness job: freshly claimed record task, status `recording`. -/
def jRecW : Job := { initialJob with status := JobStatus.recording }

/-- C3 witness: the amended theorem applied to a one-step run. -/
theorem C3_refs_empty_before_segment_witness :
    (runJob initialJob [StageEvent.recordClaimed] = some jRecW ∧
        beforeSegment jRecW.status) ∧
      jRecW.short_video_refs = [] :=
  ⟨⟨rfl, Or.inr (Or.inl rfl)⟩,
    C3_refs_empty_before_segment [StageEvent.recordClaimed] jRecW rfl
      (Or.inr (Or.inl rfl))⟩

/-- C5: Dub-stage retry exhaustion appends the failure to `error_detail`
(keeping the previous entries) and leaves the job in `processing`, from
which Segment success still advances it to `generating`; Record, Segment
and Deliver retry exhaustion each moves the job to `failed`. -/
theorem C5_dub_failure_nonfatal (j : Job) (e : String) (refs : List String) :
    (j.status = JobStatus.processing →
      ∃ j', jobStep j (StageEvent.dubExhausted e) = some j' ∧
        j'.status = JobStatus.processing ∧
        j'.error_detail = j.error_detail ++ [e] ∧
        ∃ j'', jobStep j' (StageEvent.segmentSucceeded refs) = some j'' ∧
          j''.status = JobStatus.generating ∧ j''.short_video_refs = refs) ∧
    (j.status = JobStatus.recording →
      ∃ j', jobStep j (StageEvent.recordExhausted e) = some j' ∧
        j'.status = JobStatus.failed) ∧
    (j.status = JobStatus.processing →
      ∃ j', jobStep j (StageEvent.segmentExhausted e) = some j' ∧
        j'.status = JobStatus.failed) ∧
    (j.status = JobStatus.sending →
      ∃ j', jobStep j (StageEvent.deliverExhausted e) = some j' ∧
        j'.status = JobStatus.failed) := by
  refine ⟨?_, ?_, ?_, ?_⟩ <;> intro h
  · refine ⟨{ j with error_detail := j.error_detail ++ [e] }, ?_, h, rfl,
      { j with status := JobStatus.generating
               error_detail := j.error_detail ++ [e]
               short_video_refs := refs }, ?_, rfl, rfl⟩
    · unfold jobStep
      rw [h]
    · unfold jobStep
      simp [h]
  · exact ⟨_, by unfold jobStep; rw [h], rfl⟩
  · exact ⟨_, by unfold jobStep; rw [h], rfl⟩
  · exact ⟨_, by unfold jobStep; rw [h], rfl⟩

/-- C5 witness job in `processing` with an earlier error entry. -/
def jProcW : Job :=
  { status := JobStatus.processing
    long_video_ref := some "v"
    short_video_refs := []
    error_detail := ["earlier"] }

/-- C5 witness job in `sending`. -/
def jSendW : Job := { jProcW with status := JobStatus.sending }

/-- C5 witness: the theorem's four conjuncts at concrete jobs. -/
theorem C5_dub_failure_nonfatal_witness :
    (∃ j', jobStep jProcW (StageEvent.dubExhausted "dub down") = some j' ∧
        j'.status = JobStatus.processing ∧
        j'.error_detail = jProcW.error_detail ++ ["dub down"] ∧
        ∃ j'', jobStep j' (StageEvent.segmentSucceeded ["s1"]) = some j'' ∧
          j''.status = JobStatus.generating ∧ j''.short_video_refs = ["s1"]) ∧
      (∃ j', jobStep jRecW (StageEvent.recordExhausted "rec down") = some j' ∧
        j'.status = JobStatus.failed) ∧
      (∃ j', jobStep jProcW (StageEvent.segmentExhausted "seg down") = some j' ∧
        j'.status = JobStatus.failed) ∧
      (∃ j', jobStep jSendW (StageEvent.deliverExhausted "mail down") = some j' ∧
        j'.status = JobStatus.failed) :=
  ⟨(C5_dub_failure_nonfatal jProcW "dub down" ["s1"]).1 rfl,
    (C5_dub_failure_nonfatal jRecW "rec down" ["s1"]).2.1 rfl,
    (C5_dub_failure_nonfatal jProcW "seg down" ["s1"]).2.2.1 rfl,
    (C5_dub_failure_nonfatal jSendW "mail down" ["s1"]).2.2.2 rfl⟩

/-! ## Front-end handlers (`demo-form.tsx`, `dashboard/page.tsx`) -/

/-- Observable effects of one run of `DemoForm.handleSubmit`: the error
message left in the `error` state, whether `createDemo` was invoked,
whether the auth modal was requested, whether the pending request was
saved with the auto-submit flag, and whether the router navigated to the
dashboard. -/
structure SubmitResult where
  error : Option String
  calledCreateDemo : Bool
  authRequired : Bool
  savedAutoSubmit : Bool
  redirected : Bool
deriving DecidableEq, Repr

/-- `DemoForm.handleSubmit` (`demo-form.tsx` lines 104-149).  `jsURLOk`
stands for the browser's `new URL(url)` succeeding, which is what
`validateUrl` tests; `createOutcome` is the result of the awaited
`createDemo` call.  JS falsiness of `productUrl` is emptiness since the
state is a string. -/
def handleSubmit (jsURLOk : String → Bool) (productUrl : String) (loggedIn : Bool)
    (createOutcome : Except String Unit) : SubmitResult :=
  if productUrl = "" then
    { error := some "Please enter a product URL"
      calledCreateDemo := false
      authRequired := false
      savedAutoSubmit := false
      redirected := false }
  else if jsURLOk productUrl = false then
    { error := some "Please enter a valid URL (e.g., https://example.com)"
      calledCreateDemo := false
      authRequired := false
      savedAutoSubmit := false
      redirected := false }
  else if loggedIn = false then
    { error := none
      calledCreateDemo := false
      authRequired := true
      savedAutoSubmit := true
      redirected := false }
  else
    match createOutcome with
    | Except.ok _ =>
        { error := none
          calledCreateDemo := true
          authRequired := false
          savedAutoSubmit := false
          redirected := true }
    | Except.error m =>
        { error := some (if m = "" then "Failed to create demo. Please try again." else m)
          calledCreateDemo := true
          authRequired := false
          savedAutoSubmit := false
          redirected := false }

/-- C9: `createDemo` is invoked only when `productUrl` is non-empty and
passes `validateUrl` (the URL parser accepts it); every input failing
validation leaves an error message set and never reaches `createDemo`. -/
theorem C9_submit_validates_before_create (jsURLOk : String → Bool)
    (productUrl : String) (loggedIn : Bool) (o : Except String Unit) :
    ((handleSubmit jsURLOk productUrl loggedIn o).calledCreateDemo = true →
      productUrl ≠ "" ∧ jsURLOk productUrl = true) ∧
    (productUrl = "" ∨ jsURLOk productUrl = false →
      (handleSubmit jsURLOk productUrl loggedIn o).calledCreateDemo = false ∧
        ((handleSubmit jsURLOk productUrl loggedIn o).error).isSome = true) := by
  unfold handleSubmit
  by_cases h1 : productUrl = "" <;> by_cases h2 : jsURLOk productUrl = false <;>
    cases loggedIn <;> cases o <;> simp_all

/-- C9 witness URL validity oracle. -/
def jsURLOkW : String → Bool := fun s => s == "https://example.com"

/-- C9 witness: a malformed URL sets an error and never calls
`createDemo`. -/
theorem C9_submit_validates_before_create_witness :
    (("not a url" : String) = "" ∨ jsURLOkW "not a url" = false) ∧
      ((handleSubmit jsURLOkW "not a url" true (Except.ok ())).calledCreateDemo = false ∧
        ((handleSubmit jsURLOkW "not a url" true (Except.ok ())).error).isSome = true) :=
  ⟨Or.inr (by decide),
    (C9_submit_validates_before_create jsURLOkW "not a url" true
      (Except.ok ())).2 (Or.inr (by decide))⟩

/-- One row of the front-end `Demo` interface (`services/demo.ts`). -/
structure Demo where
  id : String
  user_id : String
  product_url : String
  description : Option String
  status : JobStatus
  long_video_url : Option String
  short_video_urls : List String
  error_message : Option String
  created_at : String
  updated_at : String
deriving DecidableEq, Repr

/-- `Dashboard.handleDelete` (`dashboard/page.tsx` lines 48-60): after the
confirm dialog, awaits `deleteDemo(demoId)`; on success filters the demo
out of the `demos` state, on a thrown error alerts and leaves the state
alone.  Returns the resulting `demos` state and the alert message, if
any. -/
def handleDelete (confirmed : Bool) (deleteOutcome : Except String Unit)
    (demos : List Demo) (demoId : String) : List Demo × Option String :=
  if confirmed = false then (demos, none)
  else
    match deleteOutcome with
    | Except.ok _ => (demos.filter (fun d => d.id != demoId), none)
    | Except.error m => (demos, some ("Failed to delete demo: " ++ m))

/-- C10: the demos list loses the row only when `deleteDemo` resolved;
when it throws (or the user cancels the confirm) the list is exactly what
it was. -/
theorem C10_delete_only_after_success (confirmed : Bool) (demos : List Demo)
    (demoId m : String) :
    ((handleDelete confirmed (Except.error m) demos demoId).1 = demos) ∧
      (confirmed = true →
        (handleDelete confirmed (Except.ok ()) demos demoId).1 =
          demos.filter (fun d => d.id != demoId)) ∧
      (confirmed = false →
        ∀ o : Except String Unit, (handleDelete confirmed o demos demoId).1 = demos) := by
  cases confirmed with
  | false =>
    refine ⟨rfl, fun h => Bool.noConfusion h, fun _ o => ?_⟩
    cases o <;> rfl
  | true => exact ⟨rfl, fun _ => rfl, fun h => Bool.noConfusion h⟩

/-- C10 witness rows. -/
def demoA : Demo :=
  { id := "a"
    user_id := "u"
    product_url := "https://example.com"
    description := none
    status := JobStatus.completed
    long_video_url := none
    short_video_urls := []
    error_message := none
    created_at := "t0"
    updated_at := "t0" }

/-- Second C10 witness row. -/
def demoB : Demo := { demoA with id := "b" }

/-- C10 witness: on a concrete two-row list, a failed delete keeps both
rows and a successful delete removes just the requested one. -/
theorem C10_delete_only_after_success_witness :
    ((handleDelete true (Except.error "net") [demoA, demoB] "a").1 = [demoA, demoB]) ∧
      ((handleDelete true (Except.ok ()) [demoA, demoB] "a").1 =
        List.filter (fun d => d.id != "a") [demoA, demoB]) :=
  ⟨(C10_delete_only_after_success true [demoA, demoB] "a" "net").1,
    (C10_delete_only_after_success true [demoA, demoB] "a" "net").2.1 rfl⟩

end YCHack
